import Mathlib

/-!
Shallow embedding of the multi-dimensional vector search subsystem of
`src/database/migrations/complete_setup.sql`.

The SQL schema stores, per record, four nullable embedding columns typed
`vector(768)`, `vector(1024)`, `vector(1536)`, `vector(3072)`.  Vectors are
modelled as rational-number lists (`List ℚ`); a column of type `vector(n)` is
modelled as `Option (Vec n)` where `Vec n` is the subtype of lists of length
`n`, mirroring the length check pgvector performs on assignment.  The cosine
distance operator `<=>` is supplied by the pgvector extension (not part of
this repository), so the search functions are parameterised by an arbitrary
distance function `dist`.  Fallible SQL execution is modelled with `Except`:
`plpgsql` `RAISE EXCEPTION` and PostgreSQL's undefined-column runtime error
both become `Except.error`.
-/

/-- A value of the pgvector column type `vector (n)`: a list of scalars whose
length equals the declared dimension.  pgvector rejects an assignment of a
vector of any other length, so no other value inhabits the column. -/
abbrev Vec (n : Nat) : Type := {v : List ℚ // v.length = n}

/-- A row of the `documents` table (`CREATE TABLE documents`), restricted to
the columns the search pipeline reads.  `id` is modelled as `Nat` (UUIDs are
opaque identifiers; only equality and ordering of distinct ids matter). -/
structure DocumentRow where
  id : Nat
  title : String
  content : String
  url : String
  embedding_768 : Option (Vec 768)
  embedding_1024 : Option (Vec 1024)
  embedding_1536 : Option (Vec 1536)
  embedding_3072 : Option (Vec 3072)

/-- A row of the `code_examples` table (`CREATE TABLE code_examples`),
restricted to the columns the search pipeline reads. -/
structure CodeExampleRow where
  id : Nat
  language : String
  framework : String
  function_name : String
  code_snippet : String
  description : String
  embedding_768 : Option (Vec 768)
  embedding_1024 : Option (Vec 1024)
  embedding_1536 : Option (Vec 1536)
  embedding_3072 : Option (Vec 3072)

/-- Errors surfaced by the SQL layer: `unsupportedDimension` is the
`RAISE EXCEPTION 'Unsupported embedding dimension: %'` of
`get_embedding_column_name`; `undefinedColumn` is PostgreSQL's runtime error
when a dynamically formatted query references a column that does not exist. -/
inductive SqlError where
  | unsupportedDimension : Int → SqlError
  | undefinedColumn : String → SqlError
deriving DecidableEq

/-- The result row type of `search_similar_documents`
(`RETURNS TABLE (document_id UUID, title TEXT, content TEXT, url TEXT,
similarity_score FLOAT)`). -/
structure DocumentSearchResult where
  document_id : Nat
  title : String
  content : String
  url : String
  similarity_score : ℚ

/-- The result row type of `search_similar_code_examples`
(`RETURNS TABLE (code_id UUID, language TEXT, framework TEXT,
function_name TEXT, code_snippet TEXT, description TEXT,
similarity_score FLOAT)`). -/
structure CodeExampleSearchResult where
  code_id : Nat
  language : String
  framework : String
  function_name : String
  code_snippet : String
  description : String
  similarity_score : ℚ

/-- `detect_embedding_dimension`: `RETURN array_length(embedding_vector::float[], 1)`.
PostgreSQL's `array_length` returns NULL (here `none`) on an empty array and
the element count otherwise. -/
def detect_embedding_dimension (embedding_vector : List ℚ) : Option Nat :=
  if embedding_vector.length = 0 then none else some embedding_vector.length

/-- `get_embedding_column_name`: the `CASE dimension ... ELSE RAISE EXCEPTION`
dispatch mapping a dimension to its storage column. -/
def get_embedding_column_name (dimension : Int) : Except SqlError String :=
  if dimension = 768 then Except.ok "embedding_768"
  else if dimension = 1024 then Except.ok "embedding_1024"
  else if dimension = 1536 then Except.ok "embedding_1536"
  else if dimension = 3072 then Except.ok "embedding_3072"
  else Except.error (SqlError.unsupportedDimension dimension)

/-- The dimensions for which the two tables declare an `embedding_<d>` column
(and which `SUPPORTED_EMBEDDING_DIMENSIONS` records as `768,1024,1536,3072`). -/
def supported_dimensions : List Nat := [768, 1024, 1536, 3072]

/-- The column name the search functions build with
`format('... embedding_%s ...', dimension_size)`; PostgreSQL's `format`
renders a NULL argument of `%s` as the empty string. -/
def embeddingColumnName (dim : Option Nat) : String :=
  "embedding_" ++ (match dim with | none => "" | some d => toString d)

/-- The `embedding_<d>` column of a `documents` row, as a plain list.  The four
branches are the four columns declared by `CREATE TABLE documents`; any other
`d` names no column. -/
def DocumentRow.slot (row : DocumentRow) (d : Nat) : Option (List ℚ) :=
  if d = 768 then row.embedding_768.map Subtype.val
  else if d = 1024 then row.embedding_1024.map Subtype.val
  else if d = 1536 then row.embedding_1536.map Subtype.val
  else if d = 3072 then row.embedding_3072.map Subtype.val
  else none

/-- The `embedding_<d>` column of a `code_examples` row, as a plain list. -/
def CodeExampleRow.slot (row : CodeExampleRow) (d : Nat) : Option (List ℚ) :=
  if d = 768 then row.embedding_768.map Subtype.val
  else if d = 1024 then row.embedding_1024.map Subtype.val
  else if d = 1536 then row.embedding_1536.map Subtype.val
  else if d = 3072 then row.embedding_3072.map Subtype.val
  else none

/-- The supported dimensions whose slot a `documents` row populates. -/
def DocumentRow.populatedDimensions (row : DocumentRow) : List Nat :=
  supported_dimensions.filter fun d => (row.slot d).isSome

/-- Comparison used by the dynamic query's `ORDER BY embedding_<d> <=> $1`:
candidates are compared by their cosine distance to the query alone (there is
no secondary sort key in the SQL). -/
def distRel {α : Type} (pa pb : α × ℚ) : Prop := pa.2 ≤ pb.2

instance {α : Type} : DecidableRel (@distRel α) :=
  fun pa pb => inferInstanceAs (Decidable (pa.2 ≤ pb.2))

instance {α : Type} : IsTotal (α × ℚ) distRel :=
  ⟨fun pa pb => le_total pa.2 pb.2⟩

instance {α : Type} : IsTrans (α × ℚ) distRel :=
  ⟨fun _ _ _ => le_trans⟩

/-- The query pipeline both search functions format and execute:
`WHERE embedding_<d> IS NOT NULL AND (1 - (embedding_<d> <=> $1)) >= $2
ORDER BY embedding_<d> <=> $1 LIMIT $3`, selecting
`1 - (embedding_<d> <=> $1) as similarity_score` and the row's descriptive
columns (together built by `mk`).  `ORDER BY` with a single key is modelled as
a stable sort by distance: rows at equal distance keep their scan order. -/
def vectorSearchPipeline {α β : Type} (dist : List ℚ → List ℚ → ℚ)
    (slot : α → Option (List ℚ)) (mk : α → ℚ → β)
    (rows : List α) (query_vec : List ℚ) (threshold : ℚ) (limit : Nat) : List β :=
  (((((rows.filter fun row => (slot row).isSome).map
      fun row => (row, dist query_vec ((slot row).getD []))).filter
      fun pr => decide (threshold ≤ 1 - pr.2)).insertionSort distRel).take limit).map
    fun pr => mk pr.1 (1 - pr.2)

/-- `search_similar_documents`: detect the query's dimension, format the query
text with that dimension, and execute it.  When the detected dimension is one
of the table's four embedding columns the formatted column name resolves and
the pipeline runs; otherwise execution fails with PostgreSQL's
undefined-column error for the formatted name (note the function never calls
`get_embedding_column_name`). -/
def search_similar_documents (dist : List ℚ → List ℚ → ℚ)
    (documents : List DocumentRow) (query_embedding : List ℚ)
    (similarity_threshold : ℚ) (max_results : Nat) :
    Except SqlError (List DocumentSearchResult) :=
  match detect_embedding_dimension query_embedding with
  | none => Except.error (SqlError.undefinedColumn (embeddingColumnName none))
  | some dimension_size =>
      if dimension_size ∈ supported_dimensions then
        Except.ok (vectorSearchPipeline dist
          (fun row => DocumentRow.slot row dimension_size)
          (fun row score => ⟨row.id, row.title, row.content, row.url, score⟩)
          documents query_embedding similarity_threshold max_results)
      else Except.error (SqlError.undefinedColumn (embeddingColumnName (some dimension_size)))

/-- `search_similar_code_examples`: the same dynamically formatted pipeline as
`search_similar_documents`, over `code_examples` and its descriptive columns. -/
def search_similar_code_examples (dist : List ℚ → List ℚ → ℚ)
    (code_examples : List CodeExampleRow) (query_embedding : List ℚ)
    (similarity_threshold : ℚ) (max_results : Nat) :
    Except SqlError (List CodeExampleSearchResult) :=
  match detect_embedding_dimension query_embedding with
  | none => Except.error (SqlError.undefinedColumn (embeddingColumnName none))
  | some dimension_size =>
      if dimension_size ∈ supported_dimensions then
        Except.ok (vectorSearchPipeline dist
          (fun row => CodeExampleRow.slot row dimension_size)
          (fun row score => ⟨row.id, row.language, row.framework, row.function_name,
            row.code_snippet, row.description, score⟩)
          code_examples query_embedding similarity_threshold max_results)
      else Except.error (SqlError.undefinedColumn (embeddingColumnName (some dimension_size)))

/-- `similarity_threshold float DEFAULT 0.7` in the function signature. -/
def default_similarity_threshold : ℚ := 7/10

/-- `max_results integer DEFAULT 10` in the function signature. -/
def default_max_results : Nat := 10

/-- `search_similar_documents` invoked with both defaulted arguments omitted. -/
def search_similar_documents_default (dist : List ℚ → List ℚ → ℚ)
    (documents : List DocumentRow) (query_embedding : List ℚ) :
    Except SqlError (List DocumentSearchResult) :=
  search_similar_documents dist documents query_embedding
    default_similarity_threshold default_max_results

/-- Retrieval strategy of a dimension bucket: an ivfflat (inverted-list)
index with a given list count, or a sequential (exact) scan. -/
inductive IndexStrategy where
  | approximate : Nat → IndexStrategy
  | exactScan : IndexStrategy
deriving DecidableEq

/-- pgvector's maximum indexable dimension, per the source comments
`3072 dimensions exceed pgvector's 2000 dimension index limit`. -/
def pgvector_max_index_dimension : Nat := 2000

/-- One `CREATE INDEX ... USING ivfflat (embedding_<d> vector_cosine_ops)
WITH (lists = ...)` statement. -/
structure VectorIndex where
  table : String
  dimension : Nat
  lists : Nat
deriving DecidableEq

/-- The six ivfflat index declarations of `complete_setup.sql`: dimensions
768, 1024 and 1536 on each table, all with `lists = 100`; no index statement
exists for dimension 3072 on either table. -/
def vector_indexes : List VectorIndex :=
  [⟨"documents", 768, 100⟩, ⟨"documents", 1024, 100⟩, ⟨"documents", 1536, 100⟩,
   ⟨"code_examples", 768, 100⟩, ⟨"code_examples", 1024, 100⟩, ⟨"code_examples", 1536, 100⟩]

/-- The retrieval strategy a table's dimension bucket resolves to: the ivfflat
index built for it when one was declared, otherwise a sequential scan. -/
def index_strategy (tbl : String) (d : Nat) : IndexStrategy :=
  match vector_indexes.filter (fun ix => ix.table == tbl && ix.dimension == d) with
  | ix :: _ => IndexStrategy.approximate ix.lists
  | [] => IndexStrategy.exactScan

/-- Every pipeline output element comes from a populated row of the scanned
table, is scored as one minus its distance to the query, and passed the
threshold filter. -/
theorem mem_vectorSearchPipeline {α β : Type} {dist : List ℚ → List ℚ → ℚ}
    {slot : α → Option (List ℚ)} {mk : α → ℚ → β}
    {rows : List α} {query_vec : List ℚ} {threshold : ℚ} {limit : Nat} {b : β}
    (hb : b ∈ vectorSearchPipeline dist slot mk rows query_vec threshold limit) :
    ∃ row ∈ rows, ∃ v, slot row = some v ∧
      threshold ≤ 1 - dist query_vec v ∧ b = mk row (1 - dist query_vec v) := by
  unfold vectorSearchPipeline at hb
  rcases List.mem_map.1 hb with ⟨pr, hpr, hmk⟩
  have hpr2 : pr ∈ ((((rows.filter fun row => (slot row).isSome).map
      fun row => (row, dist query_vec ((slot row).getD []))).filter
      fun q => decide (threshold ≤ 1 - q.2)).insertionSort distRel) :=
    List.mem_of_mem_take hpr
  have hpr3 := (List.mem_insertionSort distRel).1 hpr2
  rcases List.mem_filter.1 hpr3 with ⟨hscored, hthr⟩
  rcases List.mem_map.1 hscored with ⟨row, hrowmem, hrow⟩
  rcases List.mem_filter.1 hrowmem with ⟨hmem, hsome⟩
  rcases Option.isSome_iff_exists.1 hsome with ⟨v, hv⟩
  refine ⟨row, hmem, v, hv, ?_, ?_⟩
  · have := of_decide_eq_true hthr
    rw [← hrow] at this
    simpa [hv] using this
  · rw [← hmk, ← hrow]
    simp [hv]

/-- The pipeline output is sorted by ascending distance, i.e. by descending
similarity score, for any score projection `sc` that reads back the score
`mk` was given. -/
theorem vectorSearchPipeline_sorted {α β : Type} (dist : List ℚ → List ℚ → ℚ)
    (slot : α → Option (List ℚ)) (mk : α → ℚ → β) (sc : β → ℚ)
    (hsc : ∀ row s, sc (mk row s) = s)
    (rows : List α) (query_vec : List ℚ) (threshold : ℚ) (limit : Nat) :
    List.Sorted (fun x y => sc y ≤ sc x)
      (vectorSearchPipeline dist slot mk rows query_vec threshold limit) := by
  unfold vectorSearchPipeline List.Sorted
  rw [List.pairwise_map]
  have hs := List.Pairwise.sublist (List.take_sublist limit _)
    (List.sorted_insertionSort distRel
      (((rows.filter fun row => (slot row).isSome).map
        fun row => (row, dist query_vec ((slot row).getD []))).filter
        fun pr => decide (threshold ≤ 1 - pr.2)))
  refine hs.imp ?_
  intro pa pb hab
  rw [hsc, hsc]
  have h2 : pa.2 ≤ pb.2 := hab
  linarith

/-- The pipeline returns at most `limit` elements. -/
theorem length_vectorSearchPipeline_le {α β : Type} (dist : List ℚ → List ℚ → ℚ)
    (slot : α → Option (List ℚ)) (mk : α → ℚ → β)
    (rows : List α) (query_vec : List ℚ) (threshold : ℚ) (limit : Nat) :
    (vectorSearchPipeline dist slot mk rows query_vec threshold limit).length ≤ limit := by
  unfold vectorSearchPipeline
  rw [List.length_map]
  exact List.length_take_le _ _

/-- Pointwise-equal lists are equal. -/
theorem forall2_eq {α : Type} : ∀ {l₁ l₂ : List α},
    List.Forall₂ (fun a b => a = b) l₁ l₂ → l₁ = l₂ := by
  intro l₁ l₂ h
  induction h with
  | nil => rfl
  | cons hab _ ih => rw [hab, ih]

/-- `filter` preserves `Forall₂` when related elements answer the predicates
alike. -/
theorem forall2_filter {α γ : Type} {P : α → γ → Prop} (pA : α → Bool) (pC : γ → Bool)
    (hp : ∀ a c, P a c → pA a = pC c) :
    ∀ {l₁ : List α} {l₂ : List γ}, List.Forall₂ P l₁ l₂ →
      List.Forall₂ P (l₁.filter pA) (l₂.filter pC) := by
  intro l₁ l₂ h
  induction h with
  | nil => exact List.Forall₂.nil
  | @cons a c l₁ l₂ hac _ ih =>
    rw [List.filter_cons, List.filter_cons, ← hp a c hac]
    cases pA a with
    | false => simpa using ih
    | true => simpa using List.Forall₂.cons hac ih

/-- `map` transports `Forall₂` along compatible functions. -/
theorem forall2_map {α γ β δ : Type} {P : α → γ → Prop} (Q : β → δ → Prop)
    (fA : α → β) (fC : γ → δ) (hf : ∀ a c, P a c → Q (fA a) (fC c)) :
    ∀ {l₁ : List α} {l₂ : List γ}, List.Forall₂ P l₁ l₂ →
      List.Forall₂ Q (l₁.map fA) (l₂.map fC) := by
  intro l₁ l₂ h
  induction h with
  | nil => exact List.Forall₂.nil
  | cons hac _ ih => exact List.Forall₂.cons (hf _ _ hac) ih

/-- `orderedInsert` by distance preserves `Forall₂` for any relation that
forces equal distances. -/
theorem forall2_orderedInsert {α γ : Type} {Q : α × ℚ → γ × ℚ → Prop}
    (hQ : ∀ x y, Q x y → x.2 = y.2) {x : α × ℚ} {y : γ × ℚ} (hxy : Q x y) :
    ∀ {l₁ : List (α × ℚ)} {l₂ : List (γ × ℚ)}, List.Forall₂ Q l₁ l₂ →
      List.Forall₂ Q (l₁.orderedInsert distRel x) (l₂.orderedInsert distRel y) := by
  intro l₁ l₂ h
  induction h with
  | nil => exact List.Forall₂.cons hxy List.Forall₂.nil
  | @cons a c l₁ l₂ hac htail ih =>
    simp only [List.orderedInsert]
    have hdeq : distRel x a ↔ distRel y c := by
      unfold distRel
      rw [hQ x y hxy, hQ a c hac]
    by_cases hd : distRel x a
    · rw [if_pos hd, if_pos (hdeq.1 hd)]
      exact List.Forall₂.cons hxy (List.Forall₂.cons hac htail)
    · rw [if_neg hd, if_neg (fun hc => hd (hdeq.2 hc))]
      exact List.Forall₂.cons hac ih

/-- `insertionSort` by distance preserves `Forall₂` for any relation that
forces equal distances. -/
theorem forall2_insertionSort {α γ : Type} {Q : α × ℚ → γ × ℚ → Prop}
    (hQ : ∀ x y, Q x y → x.2 = y.2) :
    ∀ {l₁ : List (α × ℚ)} {l₂ : List (γ × ℚ)}, List.Forall₂ Q l₁ l₂ →
      List.Forall₂ Q (l₁.insertionSort distRel) (l₂.insertionSort distRel) := by
  intro l₁ l₂ h
  induction h with
  | nil => exact List.Forall₂.nil
  | cons hac _ ih =>
    simp only [List.insertionSort]
    exact forall2_orderedInsert hQ hac ih

/-- The pipeline yields equal outputs over two record sets whose rows pair up
with equal slots and equal constructors. -/
theorem vectorSearchPipeline_congr {α γ β : Type} (dist : List ℚ → List ℚ → ℚ)
    (slotA : α → Option (List ℚ)) (slotC : γ → Option (List ℚ))
    (mkA : α → ℚ → β) (mkC : γ → ℚ → β)
    {rowsA : List α} {rowsC : List γ} (query_vec : List ℚ) (threshold : ℚ) (limit : Nat)
    (h : List.Forall₂ (fun a c => slotA a = slotC c ∧ ∀ s, mkA a s = mkC c s) rowsA rowsC) :
    vectorSearchPipeline dist slotA mkA rowsA query_vec threshold limit
      = vectorSearchPipeline dist slotC mkC rowsC query_vec threshold limit := by
  unfold vectorSearchPipeline
  have h1 := forall2_filter (fun row => (slotA row).isSome)
    (fun row => (slotC row).isSome) (fun a c hac => by simp only [hac.1]) h
  have h2 := forall2_map
    (fun pr₁ pr₂ => (∀ s, mkA pr₁.1 s = mkC pr₂.1 s) ∧ pr₁.2 = pr₂.2)
    (fun row => (row, dist query_vec ((slotA row).getD [])))
    (fun row => (row, dist query_vec ((slotC row).getD [])))
    (fun a c hac => ⟨hac.2, by simp only [hac.1]⟩) h1
  have h3 := forall2_filter (fun pr => decide (threshold ≤ 1 - pr.2))
    (fun pr => decide (threshold ≤ 1 - pr.2))
    (fun x y hxy => by simp only [hxy.2]) h2
  have h4 := forall2_insertionSort (fun x y hxy => hxy.2) h3
  have h5 := List.forall₂_take limit h4
  refine forall2_eq (forall2_map (fun x y => x = y) _ _ ?_ h5)
  intro x y hxy
  rw [hxy.1, hxy.2]

/-- A distance function that reports distance zero for every pair, used to
instantiate the `<=>` parameter on concrete inputs. -/
def distZero : List ℚ → List ℚ → ℚ := fun _ _ => 0

/-- A concrete 768-dimensional stored vector. -/
def vecEx768 : Vec 768 := ⟨List.replicate 768 0, List.length_replicate 768 0⟩

/-- A concrete 768-dimensional query vector. -/
def queryEx768 : List ℚ := List.replicate 768 0

/-- A `documents` row with id 1 whose 768 slot is populated. -/
def docRowA : DocumentRow := ⟨1, "t1", "c1", "u1", some vecEx768, none, none, none⟩

/-- A `documents` row with id 2 whose 768 slot is populated. -/
def docRowB : DocumentRow := ⟨2, "t2", "c2", "u2", some vecEx768, none, none, none⟩

/-- C1 counterexample: with rows of ids 2 and 1 stored in that scan order and
both at distance 0 from the query (equal similarity 1), the search returns id
2 before id 1 — the `ORDER BY` has no id tie-break, so the candidate with the
smaller id does not rank first. -/
theorem detect_queryEx768 : detect_embedding_dimension queryEx768 = some 768 := by
  unfold detect_embedding_dimension queryEx768
  rw [List.length_replicate]
  simp

theorem claim1_counterexample :
    search_similar_documents distZero [docRowB, docRowA] queryEx768 0 10
      = Except.ok [⟨2, "t2", "c2", "u2", 1⟩, ⟨1, "t1", "c1", "u1", 1⟩] := by
  have hth : decide ((0:ℚ) ≤ 1 - 0) = true := decide_eq_true (by norm_num)
  simp [search_similar_documents, detect_queryEx768, supported_dimensions,
    vectorSearchPipeline, DocumentRow.slot, docRowA, docRowB,
    distZero, distRel, List.orderedInsert, hth]

/-- If the detected dimension is `some d`, then `d` is the query's length. -/
theorem detect_some_eq_length {qv : List ℚ} {d : Nat}
    (hdet : detect_embedding_dimension qv = some d) : d = qv.length := by
  unfold detect_embedding_dimension at hdet
  by_cases h0 : qv.length = 0
  · rw [if_pos h0] at hdet; cases hdet
  · rw [if_neg h0] at hdet; exact (Option.some_inj.1 hdet).symm

/-- A successful `search_similar_documents` call means the query's length is a
supported dimension and the result is the pipeline over that dimension's
column. -/
theorem search_similar_documents_ok {dist : List ℚ → List ℚ → ℚ}
    {docs : List DocumentRow} {qv : List ℚ} {th : ℚ} {lim : Nat}
    {res : List DocumentSearchResult}
    (hok : search_similar_documents dist docs qv th lim = Except.ok res) :
    qv.length ∈ supported_dimensions ∧
      res = vectorSearchPipeline dist (fun row => DocumentRow.slot row qv.length)
        (fun row score => ⟨row.id, row.title, row.content, row.url, score⟩)
        docs qv th lim := by
  unfold search_similar_documents at hok
  cases hdet : detect_embedding_dimension qv with
  | none => rw [hdet] at hok; cases hok
  | some d =>
    simp only [hdet] at hok
    have hd : d = qv.length := detect_some_eq_length hdet
    by_cases hmem : d ∈ supported_dimensions
    · rw [if_pos hmem] at hok
      subst hd
      injection hok with hres
      exact ⟨hmem, hres.symm⟩
    · rw [if_neg hmem] at hok; cases hok

/-- C1, amended part: a successful search returns candidates sorted by
descending similarity score (ascending cosine distance). -/
theorem claim1_ranking (dist : List ℚ → List ℚ → ℚ) (docs : List DocumentRow)
    (qv : List ℚ) (th : ℚ) (lim : Nat) (res : List DocumentSearchResult)
    (hok : search_similar_documents dist docs qv th lim = Except.ok res) :
    List.Sorted (fun x y => y.similarity_score ≤ x.similarity_score) res := by
  rcases search_similar_documents_ok hok with ⟨-, rfl⟩
  exact vectorSearchPipeline_sorted dist _ _ DocumentSearchResult.similarity_score
    (fun row s => rfl) docs qv th lim

/-- Witness for `claim1_ranking` at a concrete input. -/
theorem claim1_ranking_witness :
    List.Sorted (fun x y => DocumentSearchResult.similarity_score y
      ≤ DocumentSearchResult.similarity_score x) ([] : List DocumentSearchResult) :=
  claim1_ranking distZero [] queryEx768 0 10 []
    (by simp [search_similar_documents, detect_queryEx768, supported_dimensions,
      vectorSearchPipeline])

/-- C3: every returned candidate scores at least the threshold, and its score
is one minus the cosine distance between the query and the candidate's stored
vector in the query's dimension slot. -/
theorem claim3_threshold_and_scoring (dist : List ℚ → List ℚ → ℚ)
    (docs : List DocumentRow) (qv : List ℚ) (th : ℚ) (lim : Nat)
    (res : List DocumentSearchResult) (r : DocumentSearchResult)
    (hok : search_similar_documents dist docs qv th lim = Except.ok res)
    (hr : r ∈ res) :
    th ≤ r.similarity_score ∧
      ∃ row ∈ docs, ∃ v, DocumentRow.slot row qv.length = some v ∧
        r.similarity_score = 1 - dist qv v := by
  rcases search_similar_documents_ok hok with ⟨-, rfl⟩
  rcases mem_vectorSearchPipeline hr with ⟨row, hrow, v, hv, hth2, hb⟩
  subst hb
  exact ⟨hth2, row, hrow, v, hv, rfl⟩

/-- Evaluation of the search on the single-row table used by witnesses. -/
theorem search_docRowA_eval :
    search_similar_documents distZero [docRowA] queryEx768 0 10
      = Except.ok [⟨1, "t1", "c1", "u1", 1⟩] := by
  have hth : decide ((0:ℚ) ≤ 1 - 0) = true := decide_eq_true (by norm_num)
  simp [search_similar_documents, detect_queryEx768, supported_dimensions,
    vectorSearchPipeline, DocumentRow.slot, docRowA, distZero, distRel,
    List.orderedInsert, hth]

/-- Witness for `claim3_threshold_and_scoring` at a concrete input. -/
theorem claim3_witness :
    (0:ℚ) ≤ DocumentSearchResult.similarity_score ⟨1, "t1", "c1", "u1", 1⟩ ∧
      ∃ row ∈ [docRowA], ∃ v, DocumentRow.slot row queryEx768.length = some v ∧
        DocumentSearchResult.similarity_score ⟨1, "t1", "c1", "u1", 1⟩
          = 1 - distZero queryEx768 v :=
  claim3_threshold_and_scoring distZero [docRowA] queryEx768 0 10
    [⟨1, "t1", "c1", "u1", 1⟩] ⟨1, "t1", "c1", "u1", 1⟩
    search_docRowA_eval (by simp)

/-- A list with at most one element that contains `x` is exactly `[x]`. -/
theorem mem_length_le_one_eq {α : Type} {l : List α} {x : α}
    (hx : x ∈ l) (h1 : l.length ≤ 1) : l = [x] := by
  cases l with
  | nil => cases hx
  | cons a t =>
    cases t with
    | nil => rcases List.mem_singleton.1 hx with rfl; rfl
    | cons b t2 => simp [List.length_cons] at h1

/-- C4: every returned candidate is a row of the scanned table whose slot of
the query's dimension is populated; if the row populates at most one slot (the
spec's record invariant), that slot is exactly the query's dimension bucket. -/
theorem claim4_bucket_isolation (dist : List ℚ → List ℚ → ℚ)
    (docs : List DocumentRow) (qv : List ℚ) (th : ℚ) (lim : Nat)
    (res : List DocumentSearchResult) (r : DocumentSearchResult)
    (hok : search_similar_documents dist docs qv th lim = Except.ok res)
    (hr : r ∈ res) :
    ∃ row ∈ docs, r.document_id = row.id ∧
      qv.length ∈ DocumentRow.populatedDimensions row ∧
      ((DocumentRow.populatedDimensions row).length ≤ 1 →
        DocumentRow.populatedDimensions row = [qv.length]) := by
  rcases search_similar_documents_ok hok with ⟨hmem, rfl⟩
  rcases mem_vectorSearchPipeline hr with ⟨row, hrow, v, hv, -, hb⟩
  subst hb
  have hpop : qv.length ∈ DocumentRow.populatedDimensions row := by
    unfold DocumentRow.populatedDimensions
    refine List.mem_filter.2 ⟨hmem, ?_⟩
    simp [hv]
  exact ⟨row, hrow, rfl, hpop, fun hone => mem_length_le_one_eq hpop hone⟩

/-- Witness for `claim4_bucket_isolation` at a concrete input. -/
theorem claim4_witness :
    ∃ row ∈ [docRowA],
      DocumentSearchResult.document_id ⟨1, "t1", "c1", "u1", 1⟩ = row.id ∧
      queryEx768.length ∈ DocumentRow.populatedDimensions row ∧
      ((DocumentRow.populatedDimensions row).length ≤ 1 →
        DocumentRow.populatedDimensions row = [queryEx768.length]) :=
  claim4_bucket_isolation distZero [docRowA] queryEx768 0 10
    [⟨1, "t1", "c1", "u1", 1⟩] ⟨1, "t1", "c1", "u1", 1⟩
    search_docRowA_eval (by simp)

/-- C5: a successful search returns at most `max_results` rows, and the
defaulted arguments are threshold 0.7 and limit 10. -/
theorem claim5_limit_and_defaults (dist : List ℚ → List ℚ → ℚ)
    (docs : List DocumentRow) (qv : List ℚ) (th : ℚ) (lim : Nat) :
    (∀ res, search_similar_documents dist docs qv th lim = Except.ok res →
      res.length ≤ lim) ∧
    default_similarity_threshold = 7/10 ∧ default_max_results = 10 ∧
    search_similar_documents_default dist docs qv
      = search_similar_documents dist docs qv (7/10) 10 := by
  refine ⟨?_, rfl, rfl, rfl⟩
  intro res hok
  rcases search_similar_documents_ok hok with ⟨-, rfl⟩
  exact length_vectorSearchPipeline_le dist _ _ docs qv th lim

/-- Witness for `claim5_limit_and_defaults` at a concrete input. -/
theorem claim5_witness :
    ([(⟨1, "t1", "c1", "u1", 1⟩ : DocumentSearchResult)]).length ≤ 10 :=
  (claim5_limit_and_defaults distZero [docRowA] queryEx768 0 10).1
    [⟨1, "t1", "c1", "u1", 1⟩] search_docRowA_eval

/-- A concrete query vector of the unsupported length 512. -/
def query512 : List ℚ := List.replicate 512 0

theorem detect_query512 : detect_embedding_dimension query512 = some 512 := by
  unfold detect_embedding_dimension query512
  rw [List.length_replicate]
  simp

/-- C2 counterexample: a 512-length query makes the search fail with
PostgreSQL's undefined-column error for the formatted name `embedding_512`,
not with `get_embedding_column_name`'s `unsupportedDimension` error. -/
theorem claim2_counterexample :
    search_similar_documents distZero [docRowA] query512 (7/10) 10
      = Except.error (SqlError.undefinedColumn "embedding_512") := by
  simp [search_similar_documents, detect_query512, supported_dimensions,
    embeddingColumnName]
  rfl

/-- C2, amended: a query whose length is unsupported always fails (returning
no rows), but with the undefined-column error carrying the dynamically
formatted name, never with the Registry's `unsupportedDimension` error. -/
theorem claim2_unsupported_dimension (dist : List ℚ → List ℚ → ℚ)
    (docs : List DocumentRow) (qv : List ℚ) (th : ℚ) (lim : Nat)
    (hdim : qv.length ∉ supported_dimensions) :
    search_similar_documents dist docs qv th lim
      = Except.error (SqlError.undefinedColumn
          (embeddingColumnName (detect_embedding_dimension qv))) ∧
    ∀ z : Int, search_similar_documents dist docs qv th lim
      ≠ Except.error (SqlError.unsupportedDimension z) := by
  have hmain : search_similar_documents dist docs qv th lim
      = Except.error (SqlError.undefinedColumn
          (embeddingColumnName (detect_embedding_dimension qv))) := by
    unfold search_similar_documents
    cases hdet : detect_embedding_dimension qv with
    | none => rfl
    | some d =>
      simp only [hdet]
      rw [if_neg (by rw [detect_some_eq_length hdet]; exact hdim)]
  exact ⟨hmain, fun z hz => by rw [hmain] at hz; simp at hz⟩

/-- Witness for `claim2_unsupported_dimension` at a concrete input. -/
theorem claim2_witness :
    search_similar_documents distZero [docRowA] query512 (7/10) 10
      = Except.error (SqlError.undefinedColumn
          (embeddingColumnName (detect_embedding_dimension query512))) :=
  (claim2_unsupported_dimension distZero [docRowA] query512 (7/10) 10 (by
    have hlen : query512.length = 512 := by
      unfold query512; rw [List.length_replicate]
    rw [hlen]; decide)).1

/-- C9: dimension detection returns the element count for non-empty vectors
and NULL for the empty vector; a search with an empty query therefore fails
with the undefined-column error for the name formatted from NULL
(`embedding_`), never with `unsupportedDimension`. -/
theorem claim9_empty_vector_detection :
    (∀ qv : List ℚ, qv ≠ [] → detect_embedding_dimension qv = some qv.length) ∧
    detect_embedding_dimension [] = none ∧
    ∀ (dist : List ℚ → List ℚ → ℚ) (docs : List DocumentRow) (th : ℚ) (lim : Nat),
      search_similar_documents dist docs [] th lim
        = Except.error (SqlError.undefinedColumn "embedding_") ∧
      ∀ z : Int, search_similar_documents dist docs [] th lim
        ≠ Except.error (SqlError.unsupportedDimension z) := by
  refine ⟨?_, rfl, ?_⟩
  · intro qv hne
    unfold detect_embedding_dimension
    rw [if_neg (fun h0 => hne (List.length_eq_zero.1 h0))]
  · intro dist docs th lim
    have hmain : search_similar_documents dist docs [] th lim
        = Except.error (SqlError.undefinedColumn "embedding_") := by
      unfold search_similar_documents
      rfl
    exact ⟨hmain, fun z hz => by rw [hmain] at hz; simp at hz⟩

/-- Witness for `claim9_empty_vector_detection` at a concrete input. -/
theorem claim9_witness :
    detect_embedding_dimension [(1:ℚ)] = some ([(1:ℚ)].length) :=
  claim9_empty_vector_detection.1 [(1:ℚ)] (by simp)

/-- C6: `get_embedding_column_name` succeeds exactly on the four configured
dimensions, returning that dimension's storage column, and raises
`unsupportedDimension` on every other input (it performs no mutation: it is a
pure `IMMUTABLE` dispatch). -/
theorem claim6_registry_resolution (dimension : Int) :
    (dimension = 768 → get_embedding_column_name dimension = Except.ok "embedding_768") ∧
    (dimension = 1024 → get_embedding_column_name dimension = Except.ok "embedding_1024") ∧
    (dimension = 1536 → get_embedding_column_name dimension = Except.ok "embedding_1536") ∧
    (dimension = 3072 → get_embedding_column_name dimension = Except.ok "embedding_3072") ∧
    ((dimension ≠ 768 ∧ dimension ≠ 1024 ∧ dimension ≠ 1536 ∧ dimension ≠ 3072) →
      get_embedding_column_name dimension
        = Except.error (SqlError.unsupportedDimension dimension)) ∧
    ((∃ s, get_embedding_column_name dimension = Except.ok s) ↔
      (dimension = 768 ∨ dimension = 1024 ∨ dimension = 1536 ∨ dimension = 3072)) := by
  unfold get_embedding_column_name
  split_ifs with h1 h2 h3 h4 <;> refine ⟨?_, ?_, ?_, ?_, ?_, ?_⟩ <;> simp_all

/-- Witness for `claim6_registry_resolution` at a concrete input. -/
theorem claim6_witness :
    get_embedding_column_name 512 = Except.error (SqlError.unsupportedDimension 512) :=
  (claim6_registry_resolution 512).2.2.2.2.1 (by decide)

/-- C7: a supported dimension has an ivfflat index with 100 lists on each
table exactly when it is within pgvector's 2000-dimension index limit (true
for 768, 1024, 1536); no index statement exists for 3072, whose buckets
therefore resolve to sequential (exact) scans on both tables. -/
theorem claim7_index_strategy (d : Nat) (hd : d ∈ supported_dimensions) :
    (index_strategy "documents" d = IndexStrategy.approximate 100
      ↔ d ≤ pgvector_max_index_dimension) ∧
    (index_strategy "code_examples" d = IndexStrategy.approximate 100
      ↔ d ≤ pgvector_max_index_dimension) ∧
    (pgvector_max_index_dimension < d →
      index_strategy "documents" d = IndexStrategy.exactScan ∧
      index_strategy "code_examples" d = IndexStrategy.exactScan) ∧
    vector_indexes.filter (fun ix => ix.dimension == 3072) = [] ∧
    index_strategy "documents" 3072 = IndexStrategy.exactScan ∧
    index_strategy "code_examples" 3072 = IndexStrategy.exactScan := by
  fin_cases hd <;> decide

/-- Witness for `claim7_index_strategy` at a concrete input. -/
theorem claim7_witness :
    (index_strategy "documents" 768 = IndexStrategy.approximate 100
      ↔ 768 ≤ pgvector_max_index_dimension) ∧
    (index_strategy "code_examples" 768 = IndexStrategy.approximate 100
      ↔ 768 ≤ pgvector_max_index_dimension) ∧
    (pgvector_max_index_dimension < 768 →
      index_strategy "documents" 768 = IndexStrategy.exactScan ∧
      index_strategy "code_examples" 768 = IndexStrategy.exactScan) ∧
    vector_indexes.filter (fun ix => ix.dimension == 3072) = [] ∧
    index_strategy "documents" 3072 = IndexStrategy.exactScan ∧
    index_strategy "code_examples" 3072 = IndexStrategy.exactScan :=
  claim7_index_strategy 768 (by decide)

/-- C8: a populated embedding slot always holds a vector of exactly the
slot's declared dimension — the column types `vector(768)`, `vector(1024)`,
`vector(1536)`, `vector(3072)` make a length mismatch unrepresentable, on
both tables. -/
theorem claim8_slot_length_invariant :
    (∀ (row : DocumentRow) (v : Vec 768), row.embedding_768 = some v → v.val.length = 768) ∧
    (∀ (row : DocumentRow) (v : Vec 1024), row.embedding_1024 = some v → v.val.length = 1024) ∧
    (∀ (row : DocumentRow) (v : Vec 1536), row.embedding_1536 = some v → v.val.length = 1536) ∧
    (∀ (row : DocumentRow) (v : Vec 3072), row.embedding_3072 = some v → v.val.length = 3072) ∧
    (∀ (row : CodeExampleRow) (v : Vec 768), row.embedding_768 = some v → v.val.length = 768) ∧
    (∀ (row : CodeExampleRow) (v : Vec 1024), row.embedding_1024 = some v → v.val.length = 1024) ∧
    (∀ (row : CodeExampleRow) (v : Vec 1536), row.embedding_1536 = some v → v.val.length = 1536) ∧
    (∀ (row : CodeExampleRow) (v : Vec 3072), row.embedding_3072 = some v → v.val.length = 3072) :=
  ⟨fun _ v _ => v.property, fun _ v _ => v.property, fun _ v _ => v.property,
   fun _ v _ => v.property, fun _ v _ => v.property, fun _ v _ => v.property,
   fun _ v _ => v.property, fun _ v _ => v.property⟩

/-- Witness for `claim8_slot_length_invariant` at a concrete input. -/
theorem claim8_witness : vecEx768.val.length = 768 :=
  claim8_slot_length_invariant.1 docRowA vecEx768 rfl

/-- Post-composing the pipeline with a projection is the pipeline of the
projected constructor. -/
theorem map_vectorSearchPipeline {α β γ : Type} (g : β → γ)
    (dist : List ℚ → List ℚ → ℚ) (slot : α → Option (List ℚ)) (mk : α → ℚ → β)
    (rows : List α) (query_vec : List ℚ) (threshold : ℚ) (limit : Nat) :
    (vectorSearchPipeline dist slot mk rows query_vec threshold limit).map g
      = vectorSearchPipeline dist slot (fun a s => g (mk a s))
          rows query_vec threshold limit := by
  unfold vectorSearchPipeline
  rw [List.map_map]
  rfl

/-- C10: the two search functions run the same pipeline.  On record sets that
pair up with equal ids and equal embedding slots they agree — same ids, same
similarity scores, same order, and the same error behaviour — differing only
in the source table and the descriptive fields returned. -/
theorem claim10_pipelines_agree (dist : List ℚ → List ℚ → ℚ)
    (docs : List DocumentRow) (codes : List CodeExampleRow)
    (qv : List ℚ) (th : ℚ) (lim : Nat)
    (h : List.Forall₂ (fun (dr : DocumentRow) (cr : CodeExampleRow) =>
      dr.id = cr.id ∧ ∀ d, dr.slot d = cr.slot d) docs codes) :
    Except.map (List.map fun r => (r.document_id, r.similarity_score))
        (search_similar_documents dist docs qv th lim)
      = Except.map (List.map fun r => (r.code_id, r.similarity_score))
        (search_similar_code_examples dist codes qv th lim) := by
  unfold search_similar_documents search_similar_code_examples
  cases hdet : detect_embedding_dimension qv with
  | none => rfl
  | some d =>
    by_cases hmem : d ∈ supported_dimensions
    · simp only [hmem, if_true, Except.map]
      rw [map_vectorSearchPipeline, map_vectorSearchPipeline]
      refine congrArg Except.ok
        (vectorSearchPipeline_congr dist _ _ _ _ qv th lim (h.imp ?_))
      intro dr cr hac
      exact ⟨hac.2 d, fun s => by simp [hac.1]⟩
    · simp only [hmem, if_false, Except.map]

/-- A `code_examples` row with id 1 whose 768 slot is populated. -/
def codeRowA : CodeExampleRow :=
  ⟨1, "py", "fw", "fn", "cs", "ds", some vecEx768, none, none, none⟩

/-- Witness for `claim10_pipelines_agree` at a concrete input. -/
theorem claim10_witness :
    Except.map (List.map fun r => (r.document_id, r.similarity_score))
        (search_similar_documents distZero [docRowA] queryEx768 0 10)
      = Except.map (List.map fun r => (r.code_id, r.similarity_score))
        (search_similar_code_examples distZero [codeRowA] queryEx768 0 10) :=
  claim10_pipelines_agree distZero [docRowA] [codeRowA] queryEx768 0 10
    (List.Forall₂.cons ⟨rfl, fun _ => rfl⟩ List.Forall₂.nil)
